import Mathlib

/-!
Verification development for the resilient state-coordination core found under
src/litellm/: a credential cache (azure_token_wrapper.py, v3/token_manager.py)
built on a Redis client with in-memory fallback (azure_token_wrapper.RedisClient,
v4/redis_client.py, v6/genai_litellm/src/redis_client.py), and a configuration
synchronizer (litellm_proxy_runner.py, v3/blob_config.py, v4/blob_manager.py,
v4/config_daemon.py, v5/genai_litellm/src/blob_manager.py).

The Python code is shallowly embedded: stateful methods become pure functions
threading explicit state, remote-call failures are injected through explicit
boolean arguments (a raised-and-caught exception inside a try block is the
argument being true), and external collaborators (the YAML parser, the SHA-256
fingerprint, the identity provider) are parameters of the embedding.
-/

/-- An entry of the remote shared Redis store: a string value plus an optional
absolute expiry instant in seconds.  Keys written by SETEX carry `now + ttl`;
keys written by plain SETNX carry no expiry at all. -/
structure RedisEntry where
  value : String
  expiresAt : Option Int
deriving DecidableEq, Repr

/-- Contents of the external Redis server, keyed by string. -/
def RemoteMap : Type := String → Option RedisEntry

/-- Redis-side read semantics: an entry whose expiry instant has passed is
absent (the server expires it). An entry without expiry never expires. -/
def remoteGet (now : Int) (r : RemoteMap) (k : String) : Option String :=
  match r k with
  | none => none
  | some e =>
    match e.expiresAt with
    | none => some e.value
    | some ex => if now < ex then some e.value else none

def remoteSet (r : RemoteMap) (k : String) (e : RedisEntry) : RemoteMap :=
  fun k2 => if k2 = k then some e else r k2

def remoteDel (r : RemoteMap) (k : String) : RemoteMap :=
  fun k2 => if k2 = k then none else r k2

/-- State of azure_token_wrapper.RedisClient.  `available` and `redis` embed
the `self.available` flag and `self.redis is not None`; `remote` is the
external Redis contents; `memory_cache` is the in-process fallback mapping a
key to `(value, absolute expiry)` (azure_token_wrapper.py lines 42-47).
Whether an individual remote call raises is injected as a boolean `rf`
argument at each call site. -/
structure RedisClientState where
  available : Bool
  redis : Bool
  remote : RemoteMap
  memory_cache : String → Option (String × Int)

/-- The in-memory fallback block of RedisClient.get (lines 88-98): a live
entry is returned, an expired entry is deleted and the read reports absent. -/
def RedisClient.memory_get (now : Int) (st : RedisClientState) (k : String) :
    Option String × RedisClientState :=
  match st.memory_cache k with
  | some (v, ex) =>
    if now < ex then (some v, st)
    else (none, { st with memory_cache := fun k2 => if k2 = k then none else st.memory_cache k2 })
  | none => (none, st)

/-- RedisClient.get (lines 79-98): try Redis when available; on a raised
remote error (`rf = true`) fall through to the in-memory cache. -/
def RedisClient.get (rf : Bool) (now : Int) (st : RedisClientState) (k : String) :
    Option String × RedisClientState :=
  if st.available && st.redis && !rf then (remoteGet now st.remote k, st)
  else RedisClient.memory_get now st k

/-- The in-memory fallback block of RedisClient.setex (lines 110-115). -/
def RedisClient.memory_setex (now : Int) (st : RedisClientState) (k : String)
    (seconds : Int) (v : String) : Bool × RedisClientState :=
  (true, { st with memory_cache := fun k2 => if k2 = k then some (v, now + seconds) else st.memory_cache k2 })

/-- RedisClient.setex (lines 100-115): remote SETEX when available, in-memory
fallback otherwise; returns True on both paths. -/
def RedisClient.setex (rf : Bool) (now : Int) (st : RedisClientState) (k : String)
    (seconds : Int) (v : String) : Bool × RedisClientState :=
  if st.available && st.redis && !rf then
    (true, { st with remote := remoteSet st.remote k ⟨v, some (now + seconds)⟩ })
  else RedisClient.memory_setex now st k seconds v

/-- The in-memory fallback block of RedisClient.setnx (lines 130-139): a live
entry blocks; otherwise the key is set with a short 10-second lock expiry. -/
def RedisClient.memory_setnx (now : Int) (st : RedisClientState) (k v : String) :
    Bool × RedisClientState :=
  match st.memory_cache k with
  | some (_, ex) =>
    if now < ex then (false, st)
    else (true, { st with memory_cache := fun k2 => if k2 = k then some (v, now + 10) else st.memory_cache k2 })
  | none =>
    (true, { st with memory_cache := fun k2 => if k2 = k then some (v, now + 10) else st.memory_cache k2 })

/-- RedisClient.setnx (lines 117-139): remote SETNX when available — note the
source passes no TTL to the remote SETNX, so the created entry has
`expiresAt = none` — with the in-memory fallback otherwise. -/
def RedisClient.setnx (rf : Bool) (now : Int) (st : RedisClientState) (k v : String) :
    Bool × RedisClientState :=
  if st.available && st.redis && !rf then
    match remoteGet now st.remote k with
    | some _ => (false, st)
    | none => (true, { st with remote := remoteSet st.remote k ⟨v, none⟩ })
  else RedisClient.memory_setnx now st k v

/-- The in-memory fallback block of RedisClient.delete (lines 150-152). -/
def RedisClient.memory_delete (st : RedisClientState) (k : String) : RedisClientState :=
  { st with memory_cache := fun k2 => if k2 = k then none else st.memory_cache k2 }

/-- RedisClient.delete (lines 141-152): remote delete when available (the
method returns right after, leaving the memory cache untouched), in-memory
pop otherwise. -/
def RedisClient.delete (rf : Bool) (st : RedisClientState) (k : String) : RedisClientState :=
  if st.available && st.redis && !rf then { st with remote := remoteDel st.remote k }
  else RedisClient.memory_delete st k

/-- AzureTokenManager.TOKEN_BUFFER_SECONDS (azure_token_wrapper.py line 177). -/
def AzureTokenManager.TOKEN_BUFFER_SECONDS : Int := 300

/-- The TTL computation of AzureTokenManager.get_token (lines 297-303):
`ttl_seconds = int((expiry_time - now).total_seconds()) - 300`, then clamped
up to the 60-second minimum.  `expiresOn` and `now` are epoch seconds. -/
def AzureTokenManager.ttl_seconds (expiresOn now : Int) : Int :=
  let t := expiresOn - now - AzureTokenManager.TOKEN_BUFFER_SECONDS
  if t < 60 then 60 else t

/-- The TTL computation of v3/token_manager.py AzureMITokenManager._get_token
(lines 77-78): `ttl = token.expires_on - int(time.time()) - 300` followed by
`ttl = max(ttl, 60)`. -/
def AzureMITokenManager.ttl (expiresOn now : Int) : Int :=
  max (expiresOn - now - 300) 60

/-- AzureTokenManager._cache_key (lines 225-229).  The parameter `h` models
the truncated SHA-256 hexdigest of the client id, an external pure function. -/
def AzureTokenManager.cache_key (h : String → String) (client_id : String) : String :=
  "mi_token:" ++ h client_id

/-- AzureTokenManager._lock_key (lines 231-234). -/
def AzureTokenManager.lock_key (h : String → String) (client_id : String) : String :=
  AzureTokenManager.cache_key h client_id ++ ":lock"

/-- Python truthiness of an optional string, as used by the source's
`if cached_token:` tests: None and the empty string are falsy. -/
def truthyStr (o : Option String) : Bool :=
  match o with
  | some t => !(t == "")
  | none => false

/-- The string carried by a truthy optional (defaulting to empty). -/
def strOf (o : Option String) : String := o.getD ""

/-- Outcome record of one AzureTokenManager.get_token call: the returned
token (or the propagated provider error), the final store state, and
observability counters for the claims: how many identity-provider fetches and
how many SETNX lock attempts the call performed, and whether it acquired the
single-flight lock. -/
structure TokenCallResult where
  result : Except Unit String
  state : RedisClientState
  providerCalls : Nat
  setnxCalls : Nat
  lockAcquired : Bool

/-- The `finally` clause of AzureTokenManager.get_token (lines 311-314): the
lock key is deleted only when this call acquired the lock. -/
def AzureTokenManager.release (rf : Bool) (lk : String) (lockAcquired : Bool)
    (st : RedisClientState) : RedisClientState :=
  if lockAcquired then RedisClient.delete rf st lk else st

/-- The try block of AzureTokenManager.get_token (lines 287-314): double-check
the cache, fetch from the identity provider (`provider` models
`credential.get_token`, returning a token string and its epoch expiry or a
provider error), cache the token with the buffered TTL, and release the lock
in the finally clause regardless of outcome.  `rf n` tells whether the n-th
remote store call of the surrounding get_token raises. -/
def AzureTokenManager.try_fetch (h : String → String) (rf : Nat → Bool) (now : Int)
    (provider : Except Unit (String × Int)) (st : RedisClientState)
    (client_id : String) (lockAcquired : Bool) : TokenCallResult :=
  let ck := AzureTokenManager.cache_key h client_id
  let lk := AzureTokenManager.lock_key h client_id
  let r3 := RedisClient.get (rf 3) now st ck
  if truthyStr r3.1 then
    ⟨Except.ok (strOf r3.1), AzureTokenManager.release (rf 5) lk lockAcquired r3.2, 0, 1, lockAcquired⟩
  else
    match provider with
    | Except.error _ =>
      ⟨Except.error (), AzureTokenManager.release (rf 5) lk lockAcquired r3.2, 1, 1, lockAcquired⟩
    | Except.ok (tok, expiresOn) =>
      let ttl := AzureTokenManager.ttl_seconds expiresOn now
      let r4 := RedisClient.setex (rf 4) now r3.2 ck ttl tok
      ⟨Except.ok tok, AzureTokenManager.release (rf 5) lk lockAcquired r4.2, 1, 1, lockAcquired⟩

/-- AzureTokenManager.get_token (lines 245-314), sequentially: read the cache
(a truthy hit returns immediately with no lock traffic); on a miss attempt
the single-flight SETNX; a caller that loses the lock sleeps one backoff,
re-reads the cache and returns on a hit, otherwise it falls through to fetch
anyway; the try block then double-checks, fetches, caches and releases.  In
this single-caller embedding the 0.5 s backoff sleep has no observable
effect, so time stays at `now`. -/
def AzureTokenManager.get_token (h : String → String) (rf : Nat → Bool) (now : Int)
    (provider : Except Unit (String × Int)) (st0 : RedisClientState)
    (client_id : String) : TokenCallResult :=
  let ck := AzureTokenManager.cache_key h client_id
  let lk := AzureTokenManager.lock_key h client_id
  let r1 := RedisClient.get (rf 0) now st0 ck
  if truthyStr r1.1 then ⟨Except.ok (strOf r1.1), r1.2, 0, 0, false⟩
  else
    let r2 := RedisClient.setnx (rf 1) now r1.2 lk "locked"
    if r2.1 then
      AzureTokenManager.try_fetch h rf now provider r2.2 client_id true
    else
      let r2b := RedisClient.get (rf 2) now r2.2 ck
      if truthyStr r2b.1 then ⟨Except.ok (strOf r2b.1), r2b.2, 0, 1, false⟩
      else AzureTokenManager.try_fetch h rf now provider r2b.2 client_id false

/-- State of the v4/v6 ResilientRedisClient (v4/redis_client.py lines 28-44,
v6/genai_litellm/src/redis_client.py lines 16-28).  `using_fallback` and
`redis_client` embed `self._using_fallback` and `self._redis_client is not
None`; `memory_cache` embeds `self._memory_cache`, a plain mapping of key to
bare string value — the source stores no expiry with the value. -/
structure ResilientState where
  using_fallback : Bool
  redis_client : Bool
  remote : RemoteMap
  memory_cache : String → Option String

/-- ResilientRedisClient.get (v4 lines 97-116, v6 lines 71-80): try Redis
when not in fallback; on a raised remote error (`rf = true`) or in fallback
mode answer from the memory dict, which is never pruned. -/
def ResilientRedisClient.get (rf : Bool) (now : Int) (st : ResilientState) (k : String) :
    Option String :=
  if !st.using_fallback && st.redis_client && !rf then remoteGet now st.remote k
  else st.memory_cache k

/-- ResilientRedisClient.set of v4/redis_client.py (lines 118-146): try the
remote SETEX, recording success; then always write the bare value into the
memory cache (the source notes the in-memory cache does not enforce TTL);
return the remote success flag. -/
def ResilientRedisClient.set (rf : Bool) (now : Int) (st : ResilientState)
    (k v : String) (ttl_seconds : Int) : Bool × ResilientState :=
  let success := !st.using_fallback && st.redis_client && !rf
  (success,
   { st with
     remote := if success then remoteSet st.remote k ⟨v, some (now + ttl_seconds)⟩ else st.remote,
     memory_cache := fun k2 => if k2 = k then some v else st.memory_cache k2 })

/-- ResilientRedisClient.set of v6/genai_litellm/src/redis_client.py (lines
82-94): same remote attempt and unconditional bare-value memory write, but
the method returns True regardless of the remote outcome. -/
def ResilientRedisClientV6.set (rf : Bool) (now : Int) (st : ResilientState)
    (k v : String) (ttl_seconds : Int) : Bool × ResilientState :=
  let remoteOk := !st.using_fallback && st.redis_client && !rf
  (true,
   { st with
     remote := if remoteOk then remoteSet st.remote k ⟨v, some (now + ttl_seconds)⟩ else st.remote,
     memory_cache := fun k2 => if k2 = k then some v else st.memory_cache k2 })

/-- Claim C3, counterexample.  For a provider-returned expiry 61 seconds from
now — inside the claim's 61s..24h window — the stored TTL is the 60-second
floor, which violates the claimed upper bound `ttl ≤ (expiry - now) - 300`
(here -239). -/
theorem C3_counterexample :
    AzureTokenManager.ttl_seconds 61 0 = 60 ∧
    ¬ AzureTokenManager.ttl_seconds 61 0 ≤ (61 - 0) - 300 ∧
    (61 : Int) ≤ 61 - 0 ∧ (61 : Int) - 0 ≤ 86400 := by
  decide

/-- Claim C3, amended: for expiries at least buffer + floor = 360 seconds out
(and up to 24 h, though the bound is not needed), the stored TTL satisfies
`60 ≤ ttl ≤ (expiry - now) - 300`; for expiries closer than 360 seconds the
stored TTL is the floor 60, which exceeds the claimed upper bound.  The v3
token manager computes the identical TTL. -/
theorem C3_amended_ttl_bounds (expiresOn now : Int)
    (hlo : 360 ≤ expiresOn - now) (hhi : expiresOn - now ≤ 86400) :
    (60 ≤ AzureTokenManager.ttl_seconds expiresOn now ∧
      AzureTokenManager.ttl_seconds expiresOn now ≤ (expiresOn - now) - 300) ∧
    (∀ e2 n2 : Int, 61 ≤ e2 - n2 → e2 - n2 < 360 →
      AzureTokenManager.ttl_seconds e2 n2 = 60) ∧
    AzureMITokenManager.ttl expiresOn now = AzureTokenManager.ttl_seconds expiresOn now := by
  refine ⟨?_, fun e2 n2 h1 h2 => ?_, ?_⟩ <;>
    simp only [AzureTokenManager.ttl_seconds, AzureMITokenManager.ttl,
      AzureTokenManager.TOKEN_BUFFER_SECONDS, max_def] <;>
    split_ifs <;> omega

/-- Claim C3, witness for the amended theorem at an expiry one hour out. -/
theorem C3_amended_witness :
    (60 ≤ AzureTokenManager.ttl_seconds 3600 0 ∧
      AzureTokenManager.ttl_seconds 3600 0 ≤ (3600 - 0) - 300) ∧
    (∀ e2 n2 : Int, 61 ≤ e2 - n2 → e2 - n2 < 360 →
      AzureTokenManager.ttl_seconds e2 n2 = 60) ∧
    AzureMITokenManager.ttl 3600 0 = AzureTokenManager.ttl_seconds 3600 0 :=
  C3_amended_ttl_bounds 3600 0 (by decide) (by decide)

/-- Claim C10: after the v6 ResilientRedisClient.set returns, the in-process
memory cache maps the key to the value — on every call, also when the remote
write succeeded and the store is not in fallback mode — and the call returns
True regardless of the remote outcome; the v4 variant also writes the memory
cache unconditionally. -/
theorem C10_set_writes_memory_and_returns_true (rf : Bool) (now : Int)
    (st : ResilientState) (k v : String) (ttl : Int) :
    (ResilientRedisClientV6.set rf now st k v ttl).1 = true ∧
    (ResilientRedisClientV6.set rf now st k v ttl).2.memory_cache k = some v ∧
    (ResilientRedisClient.set rf now st k v ttl).2.memory_cache k = some v := by
  refine ⟨rfl, ?_, ?_⟩ <;> simp [ResilientRedisClientV6.set, ResilientRedisClient.set]

/-- Fallback-mode v4 client with an empty memory dict. -/
def c9_fb : ResilientState :=
  { using_fallback := true, redis_client := false,
    remote := fun _ => none, memory_cache := fun _ => none }

/-- The c9_fb state after a fallback-mode set of key k with a 1-second TTL. -/
def c9_after : ResilientState := (ResilientRedisClient.set false 0 c9_fb "k" "v" 1).2

/-- Claim C9, counterexample.  In the cited v4 ResilientRedisClient the
fallback store maps the key to a bare value with no expiry component: after a
set with a 1-second TTL, a read at every later instant still returns the
value — an entry whose TTL has long passed is not treated as absent and is
never removed. -/
theorem C9_counterexample :
    c9_after.memory_cache "k" = some "v" ∧
    (∀ t : Int, ResilientRedisClient.get false t c9_after "k" = some "v") := by
  exact ⟨rfl, fun t => rfl⟩

/-- Claim C9, amended: in azure_token_wrapper.RedisClient the fallback store
does map each key to (value, absolute expiry); when the stored expiry is in
the past, get answers absent and removes the entry, and setnx treats the
entry as absent (the attempt succeeds).  In the v4/v6 resilient clients the
fallback holds bare values without expiry and entries never expire. -/
theorem C9_amended_lazy_expiry (now : Int) (st : RedisClientState) (k v : String) (e : Int)
    (hav : st.available = false) (hm : st.memory_cache k = some (v, e)) (he : e ≤ now) :
    (RedisClient.get false now st k).1 = none ∧
    (RedisClient.get false now st k).2.memory_cache k = none ∧
    (RedisClient.setnx false now st k "w").1 = true := by
  have hnl : ¬ now < e := not_lt.mpr he
  refine ⟨?_, ?_, ?_⟩ <;>
    simp [RedisClient.get, RedisClient.setnx, hav, RedisClient.memory_get,
      RedisClient.memory_setnx, hm, hnl]

/-- Fallback-mode azure_token_wrapper client holding an entry for key k that
expired at instant 5. -/
def c9_w_st : RedisClientState :=
  { available := false, redis := false, remote := fun _ => none,
    memory_cache := fun k => if k = "k" then some ("v", 5) else none }

/-- Claim C9, witness for the amended theorem: reading the expired entry at
instant 10 answers absent, prunes it, and a setnx on the key succeeds. -/
theorem C9_amended_witness :
    (RedisClient.get false 10 c9_w_st "k").1 = none ∧
    (RedisClient.get false 10 c9_w_st "k").2.memory_cache "k" = none ∧
    (RedisClient.setnx false 10 c9_w_st "k" "w").1 = true :=
  C9_amended_lazy_expiry 10 c9_w_st "k" "v" 5 rfl (by decide) (by decide)

/-- No RedisClient operation modifies the availability flag. -/
theorem RedisClient.memory_get_available (now : Int) (st : RedisClientState) (k : String) :
    (RedisClient.memory_get now st k).2.available = st.available := by
  unfold RedisClient.memory_get
  split
  · split <;> rfl
  · rfl

theorem RedisClient.get_available (rf : Bool) (now : Int) (st : RedisClientState) (k : String) :
    (RedisClient.get rf now st k).2.available = st.available := by
  unfold RedisClient.get
  split
  · rfl
  · exact RedisClient.memory_get_available now st k

theorem RedisClient.setex_available (rf : Bool) (now : Int) (st : RedisClientState)
    (k : String) (secs : Int) (v : String) :
    (RedisClient.setex rf now st k secs v).2.available = st.available := by
  unfold RedisClient.setex RedisClient.memory_setex
  split <;> rfl

theorem RedisClient.setnx_available (rf : Bool) (now : Int) (st : RedisClientState)
    (k v : String) :
    (RedisClient.setnx rf now st k v).2.available = st.available := by
  unfold RedisClient.setnx RedisClient.memory_setnx
  split
  · split <;> rfl
  · split
    · split <;> rfl
    · rfl

theorem RedisClient.delete_available (rf : Bool) (st : RedisClientState) (k : String) :
    (RedisClient.delete rf st k).available = st.available := by
  unfold RedisClient.delete RedisClient.memory_delete
  split <;> rfl

/-- Client in shared-store mode whose remote and memory both hold key k, with
different values so that the source consulted is observable. -/
def c6_st : RedisClientState :=
  { available := true, redis := true,
    remote := fun k => if k = "k" then some ⟨"remoteV", none⟩ else none,
    memory_cache := fun k => if k = "k" then some ("memV", 100) else none }

/-- Claim C6, counterexample.  A failing remote GET is answered from the
fallback, but the availability flag is not downgraded: it stays true, and the
very next call consults the remote again (it returns the remote value, not
the fallback value) — contradicting the claim that subsequent calls avoid the
remote until a future operation succeeds. -/
theorem C6_counterexample :
    (RedisClient.get true 50 c6_st "k").1 = some "memV" ∧
    (RedisClient.get true 50 c6_st "k").2.available = true ∧
    (RedisClient.get false 50 (RedisClient.get true 50 c6_st "k").2 "k").1 = some "remoteV" := by
  decide

/-- Claim C6, amended: no store operation ever raises on remote failure — on
a raised remote error each of get, setex, setnx and delete is answered by its
in-memory fallback block — but the availability flag is set only during
initialization and is never modified by any operation, succeeding or failing:
every subsequent call tries the remote again. -/
theorem C6_amended_fallback_no_downgrade (rf : Bool) (now : Int)
    (st : RedisClientState) (k v : String) (secs : Int) :
    RedisClient.get true now st k = RedisClient.memory_get now st k ∧
    RedisClient.setex true now st k secs v = RedisClient.memory_setex now st k secs v ∧
    RedisClient.setnx true now st k v = RedisClient.memory_setnx now st k v ∧
    RedisClient.delete true st k = RedisClient.memory_delete st k ∧
    (RedisClient.get rf now st k).2.available = st.available ∧
    (RedisClient.setex rf now st k secs v).2.available = st.available ∧
    (RedisClient.setnx rf now st k v).2.available = st.available ∧
    (RedisClient.delete rf st k).available = st.available := by
  refine ⟨?_, ?_, ?_, ?_, RedisClient.get_available rf now st k,
    RedisClient.setex_available rf now st k secs v,
    RedisClient.setnx_available rf now st k v,
    RedisClient.delete_available rf st k⟩ <;>
    simp [RedisClient.get, RedisClient.setex, RedisClient.setnx, RedisClient.delete]

/-- An entry created by remote SETNX without expiry blocks every later SETNX
attempt, at any time whatsoever. -/
theorem RedisClient.setnx_blocked_no_expiry (now : Int) (st : RedisClientState)
    (k v w : String) (hav : st.available = true) (hr : st.redis = true)
    (he : st.remote k = some ⟨w, none⟩) :
    (RedisClient.setnx false now st k v).1 = false := by
  simp [RedisClient.setnx, hav, hr, remoteGet, he]

/-- The lock key of identity cid (hash modelled as the identity function). -/
def c7_lk : String := AzureTokenManager.lock_key (fun s => s) "cid"

/-- Shared-store-mode client with an empty remote store. -/
def c7_st0 : RedisClientState :=
  { available := true, redis := true, remote := fun _ => none, memory_cache := fun _ => none }

/-- The lock acquisition of get_token step 2 in shared-store mode. -/
def c7_acq : Bool × RedisClientState := RedisClient.setnx false 0 c7_st0 c7_lk "locked"

/-- Fallback-mode client with an empty memory cache. -/
def c7_fb : RedisClientState :=
  { available := false, redis := false, remote := fun _ => none, memory_cache := fun _ => none }

/-- The lock acquisition of get_token step 2 in fallback mode. -/
def c7_fba : Bool × RedisClientState := RedisClient.setnx false 0 c7_fb c7_lk "locked"

/-- Claim C7: evaluation at the failing input.  In shared-store mode the lock
record is created by a plain SETNX with no TTL (`expiresAt = none`), so after
a crash of the holder (nobody runs the delete in the finally clause) a
subsequent caller's SETNX fails at every later instant: the lock never
expires and is never reclaimable.  Only the in-memory fallback lock carries
the short 10-second TTL and is reclaimable one TTL period later. -/
theorem C7_shared_lock_never_expires :
    c7_acq.1 = true ∧
    c7_acq.2.remote c7_lk = some ⟨"locked", none⟩ ∧
    (∀ t : Int, (RedisClient.setnx false t c7_acq.2 c7_lk "retry").1 = false) ∧
    c7_fba.2.memory_cache c7_lk = some ("locked", 10) ∧
    (RedisClient.setnx false 10 c7_fba.2 c7_lk "retry").1 = true := by
  refine ⟨by decide, by decide, ?_, by decide, by decide⟩
  intro t
  exact RedisClient.setnx_blocked_no_expiry t c7_acq.2 c7_lk "retry" "locked"
    (by decide) (by decide) (by decide)

/-- Claim C5: while a truthy (non-empty) token is cached under the identity's
cache key, get_token returns exactly that cached token, performs zero
identity-provider calls, and performs no SETNX on the lock key — the hit path
returns before any lock traffic, for every provider and every pattern of
remote-store failures. -/
theorem C5_cache_hit_returns_cached (h : String → String) (rf : Nat → Bool) (now : Int)
    (provider : Except Unit (String × Int)) (st : RedisClientState) (client_id : String)
    (t : String)
    (hc : (RedisClient.get (rf 0) now st (AzureTokenManager.cache_key h client_id)).1 = some t)
    (ht : t ≠ "") :
    (AzureTokenManager.get_token h rf now provider st client_id).result = Except.ok t ∧
    (AzureTokenManager.get_token h rf now provider st client_id).providerCalls = 0 ∧
    (AzureTokenManager.get_token h rf now provider st client_id).setnxCalls = 0 := by
  have htt : truthyStr (some t) = true := by simp [truthyStr, ht]
  simp [AzureTokenManager.get_token, hc, htt, strOf]

/-- Fallback-mode client whose memory cache holds the token for identity cid. -/
def c5_w_st : RedisClientState :=
  { available := false, redis := false, remote := fun _ => none,
    memory_cache := fun k =>
      if k = AzureTokenManager.cache_key (fun s => s) "cid" then some ("tok", 100) else none }

/-- Claim C5, witness: a concrete call on c5_w_st at instant 0 returns the
cached token with zero provider calls and zero lock attempts. -/
theorem C5_cache_hit_witness :
    (AzureTokenManager.get_token (fun s => s) (fun _ => false) 0 (Except.error ()) c5_w_st "cid").result = Except.ok "tok" ∧
    (AzureTokenManager.get_token (fun s => s) (fun _ => false) 0 (Except.error ()) c5_w_st "cid").providerCalls = 0 ∧
    (AzureTokenManager.get_token (fun s => s) (fun _ => false) 0 (Except.error ()) c5_w_st "cid").setnxCalls = 0 :=
  C5_cache_hit_returns_cached (fun s => s) (fun _ => false) 0 (Except.error ()) c5_w_st "cid"
    "tok" (by decide) (by decide)

/-- Whether a get_token outcome is a token (as opposed to a provider error). -/
def exceptIsOk : Except Unit String → Bool
  | Except.ok _ => true
  | Except.error _ => false

/-- After the finally-clause delete of a key, a fresh SETNX on that key
succeeds — the lock is observably released, in shared-store mode (the remote
entry is gone) and in fallback mode (the memory entry is popped) alike. -/
theorem RedisClient.setnx_after_delete (now : Int) (st : RedisClientState) (k v : String) :
    (RedisClient.setnx false now (RedisClient.delete false st k) k v).1 = true := by
  by_cases hcond : (st.available && st.redis) = true
  · simp [RedisClient.delete, RedisClient.setnx, hcond, remoteGet, remoteDel]
  · simp [RedisClient.delete, RedisClient.setnx, RedisClient.memory_delete,
      RedisClient.memory_setnx, hcond]

/-- The try block always reports a token when the provider succeeds. -/
theorem AzureTokenManager.try_fetch_ok (h : String → String) (rf : Nat → Bool) (now : Int)
    (tok : String) (exp : Int) (st : RedisClientState) (client_id : String) (la : Bool) :
    exceptIsOk (AzureTokenManager.try_fetch h rf now (Except.ok (tok, exp)) st client_id la).result = true := by
  simp only [AzureTokenManager.try_fetch]
  split
  · rfl
  · rfl

/-- If the try block performed the provider call and the provider failed, the
error is the call's result. -/
theorem AzureTokenManager.try_fetch_err (h : String → String) (rf : Nat → Bool) (now : Int)
    (st : RedisClientState) (client_id : String) (la : Bool) :
    (AzureTokenManager.try_fetch h rf now (Except.error ()) st client_id la).providerCalls = 1 →
    (AzureTokenManager.try_fetch h rf now (Except.error ()) st client_id la).result = Except.error () := by
  simp only [AzureTokenManager.try_fetch]
  split
  · intro hp
    exact absurd hp (by simp)
  · intro _
    rfl

/-- The try block records exactly the lock-acquisition flag it was given. -/
theorem AzureTokenManager.try_fetch_lockAcquired (h : String → String) (rf : Nat → Bool)
    (now : Int) (provider : Except Unit (String × Int)) (st : RedisClientState)
    (client_id : String) (la : Bool) :
    (AzureTokenManager.try_fetch h rf now provider st client_id la).lockAcquired = la := by
  cases provider with
  | error e =>
    simp only [AzureTokenManager.try_fetch]
    split
    · rfl
    · rfl
  | ok p =>
    obtain ⟨tok, exp⟩ := p
    simp only [AzureTokenManager.try_fetch]
    split
    · rfl
    · rfl

/-- When this call acquired the lock and the finally-clause delete does not
hit a remote failure, the lock key is free again after the try block. -/
theorem AzureTokenManager.try_fetch_release_probe (h : String → String) (rf : Nat → Bool)
    (now : Int) (provider : Except Unit (String × Int)) (st : RedisClientState)
    (client_id : String) (hrf5 : rf 5 = false) :
    (RedisClient.setnx false now
      (AzureTokenManager.try_fetch h rf now provider st client_id true).state
      (AzureTokenManager.lock_key h client_id) "probe").1 = true := by
  cases provider with
  | error e =>
    simp only [AzureTokenManager.try_fetch, AzureTokenManager.release, hrf5]
    split <;> simp [RedisClient.setnx_after_delete]
  | ok p =>
    obtain ⟨tok, exp⟩ := p
    simp only [AzureTokenManager.try_fetch, AzureTokenManager.release, hrf5]
    split <;> simp [RedisClient.setnx_after_delete]

/-- Claim C8: (a) for every pattern of remote-store failures, a get_token
call whose provider succeeds returns a token — lock-related store failures
never fail the caller; (b) when the call performed the provider fetch and the
provider failed, the error propagates to the caller (never an empty or
absent token); (c) whenever the call acquired the single-flight lock and the
finally-clause delete is not itself hit by a remote failure, the lock key is
released when the call returns — on the fetch-success and the fetch-error
path alike — so a fresh SETNX on the lock key succeeds. -/
theorem C8_lock_release_and_error_propagation (h : String → String) (rf : Nat → Bool)
    (now : Int) (st : RedisClientState) (client_id : String) :
    (∀ (tok : String) (exp : Int),
      exceptIsOk (AzureTokenManager.get_token h rf now (Except.ok (tok, exp)) st client_id).result = true) ∧
    ((AzureTokenManager.get_token h rf now (Except.error ()) st client_id).providerCalls = 1 →
      (AzureTokenManager.get_token h rf now (Except.error ()) st client_id).result = Except.error ()) ∧
    (∀ provider : Except Unit (String × Int), rf 5 = false →
      (AzureTokenManager.get_token h rf now provider st client_id).lockAcquired = true →
      (RedisClient.setnx false now
        (AzureTokenManager.get_token h rf now provider st client_id).state
        (AzureTokenManager.lock_key h client_id) "probe").1 = true) := by
  refine ⟨?_, ?_, ?_⟩
  · intro tok exp
    simp only [AzureTokenManager.get_token]
    split
    · rfl
    · split
      · exact AzureTokenManager.try_fetch_ok h rf now tok exp _ client_id true
      · split
        · rfl
        · exact AzureTokenManager.try_fetch_ok h rf now tok exp _ client_id false
  · simp only [AzureTokenManager.get_token]
    split
    · intro hp
      exact absurd hp (by simp)
    · split
      · exact AzureTokenManager.try_fetch_err h rf now _ client_id true
      · split
        · intro hp
          exact absurd hp (by simp)
        · exact AzureTokenManager.try_fetch_err h rf now _ client_id false
  · intro provider hrf5 hacq
    simp only [AzureTokenManager.get_token] at hacq ⊢
    split at hacq
    · simp at hacq
    · rename_i hmiss
      split at hacq
      · rename_i hlock
        simp only [hmiss, hlock, if_false, if_true, Bool.false_eq_true, if_neg, not_false_eq_true]
        exact AzureTokenManager.try_fetch_release_probe h rf now provider _ client_id hrf5
      · rename_i hnolock
        split at hacq
        · simp at hacq
        · rw [AzureTokenManager.try_fetch_lockAcquired] at hacq
          exact absurd hacq (by simp)

/-- Shared-store-mode client with an empty remote store, for the C8 witness. -/
def c8_st : RedisClientState :=
  { available := true, redis := true, remote := fun _ => none, memory_cache := fun _ => none }

/-- Claim C8, witness: a concrete miss-and-fetch call on an empty shared
store acquires the lock, returns the provider token, and leaves the lock key
free (a fresh SETNX on it succeeds). -/
theorem C8_witness :
    exceptIsOk (AzureTokenManager.get_token (fun s => s) (fun _ => false) 0
      (Except.ok ("tok", 4000)) c8_st "cid").result = true ∧
    (RedisClient.setnx false 0
      (AzureTokenManager.get_token (fun s => s) (fun _ => false) 0
        (Except.ok ("tok", 4000)) c8_st "cid").state
      (AzureTokenManager.lock_key (fun s => s) "cid") "probe").1 = true :=
  ⟨(C8_lock_release_and_error_propagation (fun s => s) (fun _ => false) 0 c8_st "cid").1 "tok" 4000,
   (C8_lock_release_and_error_propagation (fun s => s) (fun _ => false) 0 c8_st "cid").2.2
     (Except.ok ("tok", 4000)) rfl (by decide)⟩

/-- Parsed YAML documents, as returned by the external yaml.safe_load: a
scalar, a sequence, a mapping with string keys, or null.  The parser itself
is external; the embedding passes it as a function `sl : String → Option
Yaml` where `none` models a raised YAMLError. -/
inductive Yaml where
  | nullv : Yaml
  | str : String → Yaml
  | list : List Yaml → Yaml
  | map : List (String × Yaml) → Yaml

/-- Key lookup in a YAML mapping (absent on non-mappings). -/
def Yaml.find (y : Yaml) (k : String) : Option Yaml :=
  match y with
  | Yaml.map kvs => kvs.lookup k
  | _ => none

/-- Python truthiness of a YAML value, as used by v3's `not cfg[...]` test. -/
def Yaml.truthy (y : Yaml) : Bool :=
  match y with
  | Yaml.nullv => false
  | Yaml.str s => !(s == "")
  | Yaml.list xs => !xs.isEmpty
  | Yaml.map kvs => !kvs.isEmpty

/-- The local filesystem slots of the v4/v5 blob manager: the active config
file and the transient temp path. -/
structure V4Fs where
  active : Option String
  temp : Option String

/-- BlobConfigManager.fetch_config of v4/blob_manager.py lines 81-122 (v5
blob_manager.py lines 64-98 is line-for-line the same logic): download the
blob (`none` models a raised download error, caught and reported as False);
check only that yaml.safe_load succeeds — no structural check here —, write
the bytes to the temp path, and atomically rename temp onto the active path;
report True. -/
def BlobConfigManager.fetch_config (sl : String → Option Yaml) (blob : Option String)
    (fs : V4Fs) : Bool × V4Fs :=
  match blob with
  | none => (false, fs)
  | some content =>
    match sl content with
    | none => (false, fs)
    | some _ => (true, { active := some content, temp := none })

/-- BlobConfigManager.validate_config_file of v4/blob_manager.py lines
124-160 (v5 lines 100-127): the file must exist, parse, be a mapping, and
hold a list under the model-list key. -/
def BlobConfigManager.validate_config_file (sl : String → Option Yaml) (fs : V4Fs) : Bool :=
  match fs.active with
  | none => false
  | some content =>
    match sl content with
    | none => false
    | some y =>
      match y with
      | Yaml.map _ =>
        match y.find "model_list" with
        | some (Yaml.list _) => true
        | some _ => false
        | none => false
      | _ => false

/-- One poll cycle of the v4 ConfigRefreshDaemon._refresh_loop body
(v4/config_daemon.py lines 61-92, v5/config_daemon.py lines 48-66): fetch —
which already installs on success — then validate the installed file.
Returns the filesystem after the cycle, whether the fetch succeeded, and
whether validation passed (`false` is the reported validation failure). -/
def ConfigRefreshDaemon.refresh_cycle (sl : String → Option Yaml) (blob : Option String)
    (fs : V4Fs) : V4Fs × Bool × Bool :=
  let r := BlobConfigManager.fetch_config sl blob fs
  if r.1 then (r.2, true, BlobConfigManager.validate_config_file sl r.2)
  else (r.2, false, false)

/-- Demo parser for concrete runs: the bytes "good" parse to a config with a
one-entry model list; the bytes "noml" parse to a mapping without the
model-list key; anything else fails to parse. -/
def slDemo : String → Option Yaml := fun c =>
  if c = "good" then
    some (Yaml.map [("model_list",
      Yaml.list [Yaml.map [("model_name", Yaml.str "m"),
                           ("litellm_params", Yaml.map [("model", Yaml.str "azure/x")])]])])
  else if c = "noml" then some (Yaml.map [("foo", Yaml.str "1")])
  else none

/-- Filesystem before the C1 cycle: the active file holds a valid config. -/
def c1_fs0 : V4Fs := { active := some "good", temp := none }

/-- The C1 poll cycle: the blob returns a YAML-parseable candidate that lacks
the model-list mapping. -/
def c1_res : V4Fs × Bool × Bool := ConfigRefreshDaemon.refresh_cycle slDemo (some "noml") c1_fs0

/-- Claim C1: evaluation at the failing input.  fetch_config checks only
YAML syntax before the atomic rename, so a candidate that parses but lacks
the model-list mapping is installed over the active file; validation then
fails on the already-installed file.  The cycle reports a validation failure
(and the daemon logs that it keeps the previous config) while the active
file has in fact been replaced by the invalid candidate. -/
theorem C1_invalid_candidate_replaces_active :
    c1_res.1.active = some "noml" ∧
    c1_res.1.active ≠ c1_fs0.active ∧
    c1_res.2.1 = true ∧
    c1_res.2.2 = false ∧
    BlobConfigManager.validate_config_file slDemo c1_fs0 = true := by
  decide

/-- Change-detection state of litellm_proxy_runner.BlobConfigFetcher (lines
177-182): the etag and content fingerprint of the last blob examined. -/
structure FetcherState where
  last_etag : Option String
  last_content_hash : Option String

/-- BlobConfigFetcher.check_for_updates (litellm_proxy_runner.py lines
225-252).  `fp` models the external SHA-256 hexdigest.  Note both the etag
and the content fingerprint are updated here, at change-detection time,
before any validation of the content happens. -/
def BlobConfigFetcher.check_for_updates (fp : String → String) (st : FetcherState)
    (etag content : String) : Option String × FetcherState :=
  if some etag = st.last_etag then (none, st)
  else
    let h := fp content
    if some h = st.last_content_hash then (none, { st with last_etag := some etag })
    else (some content, { last_etag := some etag, last_content_hash := some h })

/-- One model-list entry check of ConfigValidator.validate
(litellm_proxy_runner.py lines 146-161). -/
def ConfigValidator.model_ok (m : Yaml) : Bool :=
  match m with
  | Yaml.map kvs =>
    (kvs.lookup "model_name").isSome &&
    (match kvs.lookup "litellm_params" with
     | some (Yaml.map ps) => (ps.lookup "model").isSome
     | _ => false)
  | _ => false

/-- ConfigValidator.validate (litellm_proxy_runner.py lines 131-167): a
mapping holding a non-empty model list whose entries each carry a model
name and litellm params with a model field; any other shape fails (a raised
TypeError on a non-mapping is caught and reported as a failure). -/
def ConfigValidator.validate (y : Yaml) : Bool :=
  match y with
  | Yaml.map kvs =>
    match kvs.lookup "model_list" with
    | some (Yaml.list ms) => !ms.isEmpty && ms.all ConfigValidator.model_ok
    | some _ => false
    | none => false
  | _ => false

/-- The config file slots of the main runner (litellm_proxy_runner.Config
lines 59-62): active, last-good and temp paths. -/
structure RunnerFs where
  active : Option String
  last_good : Option String
  temp : Option String

/-- ConfigManager.reload_config (litellm_proxy_runner.py lines 290-347):
check for updates; when a candidate is returned write it to the temp path,
parse and validate it (on failure unlink temp and keep the active file),
otherwise copy active to last-good and atomically move temp onto active.
The returned Bool tells whether an install happened.  The fetcher state is
whatever check_for_updates produced — reload_config never rolls it back on a
validation failure. -/
def ConfigManager.reload_config (fp : String → String) (sl : String → Option Yaml)
    (st : FetcherState) (fs : RunnerFs) (etag content : String) :
    FetcherState × RunnerFs × Bool :=
  let r := BlobConfigFetcher.check_for_updates fp st etag content
  match r.1 with
  | none => (r.2, fs, false)
  | some c =>
    let fsT : RunnerFs := { fs with temp := some c }
    match sl c with
    | none => (r.2, { fsT with temp := none }, false)
    | some y =>
      if ConfigValidator.validate y then
        (r.2, { active := some c, last_good := fs.active, temp := none }, true)
      else (r.2, { fsT with temp := none }, false)

/-- Poll 1 of the C4 run: a fresh fetcher sees a valid document. -/
def c4_r1 : FetcherState × RunnerFs × Bool :=
  ConfigManager.reload_config (fun s => s) slDemo
    { last_etag := none, last_content_hash := none }
    { active := some "init", last_good := none, temp := none } "e1" "good"

/-- The filesystem entering poll 2. -/
def c4_r2_fs : RunnerFs := c4_r1.2.1

/-- Poll 2: a new blob version whose bytes parse but fail validation. -/
def c4_r2 : FetcherState × RunnerFs × Bool :=
  ConfigManager.reload_config (fun s => s) slDemo c4_r1.1 c4_r2_fs "e2" "noml"

/-- Poll 3: yet another blob version (fresh etag) whose bytes are identical
to the candidate poll 2 rejected. -/
def c4_r3 : FetcherState × RunnerFs × Bool :=
  ConfigManager.reload_config (fun s => s) slDemo c4_r2.1 c4_r2.2.1 "e3" "noml"

/-- Claim C4, counterexample.  In the main runner the content fingerprint is
updated at change-detection time, before validation: after poll 2 rejects the
candidate, poll 3 — returning bytes identical to the rejected candidate under
a fresh etag — is skipped by the fingerprint match inside check_for_updates
(the candidate is `none`, so it is never re-validated), contradicting the
claim that the fingerprint is updated only after successful validation and
install. -/
theorem C4_counterexample :
    c4_r1.2.2 = true ∧
    c4_r2.2.2 = false ∧
    c4_r2.2.1.active = some "good" ∧
    c4_r2.1.last_content_hash = some "noml" ∧
    (BlobConfigFetcher.check_for_updates (fun s => s) c4_r2.1 "e3" "noml").1 = none ∧
    c4_r3.2.2 = false := by
  decide

/-- Fingerprint state of v3/blob_config.py BlobConfigManager (line 19). -/
structure V3State where
  last_hash : Option String

/-- The file slots of the v3 synchronizer: active and last-good paths. -/
structure V3Fs where
  active : Option String
  last_good : Option String

/-- BlobConfigManager._validate of v3/blob_config.py (lines 83-85): raises
when the model-list key is absent or its value falsy; a non-mapping document
likewise raises (Python TypeError on the `in` test), merged here into the
same failing outcome. -/
def BlobConfigManagerV3.validate (cfg : Yaml) : Bool :=
  match cfg with
  | Yaml.map kvs =>
    match kvs.lookup "model_list" with
    | some v => v.truthy
    | none => false
  | _ => false

/-- BlobConfigManager.sync_from_blob of v3/blob_config.py (lines 51-81):
fingerprint the downloaded bytes and no-op on a match with the last applied
hash; otherwise parse (a raise propagates), validate (a raise propagates),
write the temp file, back up the active file to last-good when it exists,
atomically move temp onto active, and only then record the new hash.  On the
raising paths nothing has been mutated, so the caller's state and files are
returned unchanged. -/
def BlobConfigManagerV3.sync_from_blob (fp : String → String) (sl : String → Option Yaml)
    (st : V3State) (fs : V3Fs) (content : String) :
    Except Unit Bool × V3State × V3Fs :=
  let new_hash := fp content
  if some new_hash = st.last_hash then (Except.ok false, st, fs)
  else
    match sl content with
    | none => (Except.error (), st, fs)
    | some data =>
      if BlobConfigManagerV3.validate data then
        (Except.ok true, { last_hash := some new_hash },
         { active := some content,
           last_good := if fs.active.isSome then fs.active else fs.last_good })
      else (Except.error (), st, fs)

/-- Claim C4, amended: in the v3 synchronizer the last-applied fingerprint is
updated only after a candidate validates and installs.  A changed candidate
that fails parsing or validation is rejected with the fingerprint and the
files left unchanged, and is not reported as an unchanged no-op — so a later
poll returning bytes identical to the rejected candidate runs the full
re-validation again instead of being skipped by the fingerprint.  (In the
main runner's fetcher the fingerprint is updated at change-detection time
before validation, so such bytes are skipped: see the counterexample.) -/
theorem C4_amended_v3_fingerprint_on_success_only (fp : String → String)
    (sl : String → Option Yaml) (st : V3State) (fs : V3Fs) (b : String)
    (hchanged : ¬ some (fp b) = st.last_hash)
    (hbad : sl b = none ∨ ∃ y, sl b = some y ∧ BlobConfigManagerV3.validate y = false) :
    BlobConfigManagerV3.sync_from_blob fp sl st fs b = (Except.error (), st, fs) ∧
    (BlobConfigManagerV3.sync_from_blob fp sl st fs b).1 ≠ Except.ok false := by
  have hrej : BlobConfigManagerV3.sync_from_blob fp sl st fs b = (Except.error (), st, fs) := by
    rcases hbad with hnone | ⟨y, hy, hval⟩
    · simp [BlobConfigManagerV3.sync_from_blob, hchanged, hnone]
    · simp [BlobConfigManagerV3.sync_from_blob, hchanged, hy, hval]
  refine ⟨hrej, ?_⟩
  rw [hrej]
  simp

/-- Claim C4, witness for the amended theorem: a changed candidate lacking
the model-list key is rejected twice in a row — the second, byte-identical
poll is re-validated rather than skipped, because the fingerprint was not
updated by the rejection. -/
theorem C4_amended_witness :
    BlobConfigManagerV3.sync_from_blob (fun s => s) slDemo
      { last_hash := some "good" } { active := some "good", last_good := none } "noml" =
      (Except.error (), { last_hash := some "good" }, { active := some "good", last_good := none }) ∧
    (BlobConfigManagerV3.sync_from_blob (fun s => s) slDemo
      { last_hash := some "good" } { active := some "good", last_good := none } "noml").1 ≠
      Except.ok false :=
  C4_amended_v3_fingerprint_on_success_only (fun s => s) slDemo
    { last_hash := some "good" } { active := some "good", last_good := none } "noml"
    (by decide)
    (Or.inr ⟨Yaml.map [("foo", Yaml.str "1")], rfl, rfl⟩)

/-- Program counter of one get_token caller in the concurrent burst model,
one atomic shared-store operation per step, following the control flow of
AzureTokenManager.get_token (lines 260-314): initial cache read; SETNX lock
attempt; post-backoff cache re-read for a caller that lost the lock; the try
block's double-check; the provider fetch; the SETEX of the token; the
finally-clause delete for the lock holder. -/
inductive BurstPC where
  | start
  | lockTry
  | sleepRead
  | doubleCheck
  | fetch
  | store
  | release
  | done
deriving DecidableEq, Repr

/-- Local state of one caller in the burst model. -/
structure BurstCaller where
  pc : BurstPC
  lockAcquired : Bool
  result : Option String
  fetches : Nat
deriving Repr

/-- Parameters of a burst: the identity's cache and lock keys and the
provider's (successful) answer, shared by both callers. -/
structure BurstParams where
  ck : String
  lk : String
  tok : String
  expiresOn : Int

/-- One atomic step of one caller against the shared store, with the store
available and no remote failures (the claim's premise).  Each branch mirrors
the corresponding statement of AzureTokenManager.get_token: a truthy cache
read returns; a lost lock leads to the backoff re-read whose hit returns and
whose miss falls through to the double-check; the double-check hit returns
(through the finally release for the lock holder); the fetch and SETEX are
followed by the release only for the lock holder. -/
def burstStepCaller (p : BurstParams) (now : Int) (st : RedisClientState)
    (c : BurstCaller) : RedisClientState × BurstCaller :=
  match c.pc with
  | BurstPC.start =>
    let r := RedisClient.get false now st p.ck
    if truthyStr r.1 then (r.2, { c with pc := BurstPC.done, result := some (strOf r.1) })
    else (r.2, { c with pc := BurstPC.lockTry })
  | BurstPC.lockTry =>
    let r := RedisClient.setnx false now st p.lk "locked"
    if r.1 then (r.2, { c with pc := BurstPC.doubleCheck, lockAcquired := true })
    else (r.2, { c with pc := BurstPC.sleepRead })
  | BurstPC.sleepRead =>
    let r := RedisClient.get false now st p.ck
    if truthyStr r.1 then (r.2, { c with pc := BurstPC.done, result := some (strOf r.1) })
    else (r.2, { c with pc := BurstPC.doubleCheck })
  | BurstPC.doubleCheck =>
    let r := RedisClient.get false now st p.ck
    if truthyStr r.1 then
      (r.2, { c with pc := (if c.lockAcquired then BurstPC.release else BurstPC.done), result := some (strOf r.1) })
    else (r.2, { c with pc := BurstPC.fetch })
  | BurstPC.fetch =>
    (st, { c with pc := BurstPC.store, fetches := c.fetches + 1, result := some p.tok })
  | BurstPC.store =>
    let r := RedisClient.setex false now st p.ck (AzureTokenManager.ttl_seconds p.expiresOn now) p.tok
    (r.2, { c with pc := if c.lockAcquired then BurstPC.release else BurstPC.done })
  | BurstPC.release =>
    (RedisClient.delete false st p.lk, { c with pc := BurstPC.done })
  | BurstPC.done => (st, c)

/-- Shared store plus the two concurrent callers of the burst. -/
structure BurstSys where
  store : RedisClientState
  c0 : BurstCaller
  c1 : BurstCaller

/-- Scheduler step: run one atomic step of the chosen caller. -/
def burstStep (p : BurstParams) (now : Int) (sys : BurstSys) (i : Bool) : BurstSys :=
  if i then
    let r := burstStepCaller p now sys.store sys.c1
    { sys with store := r.1, c1 := r.2 }
  else
    let r := burstStepCaller p now sys.store sys.c0
    { sys with store := r.1, c0 := r.2 }

/-- Run the burst under an interleaving schedule (false = caller 0). -/
def burstRun (p : BurstParams) (now : Int) (sys : BurstSys) : List Bool → BurstSys
  | [] => sys
  | i :: rest => burstRun p now (burstStep p now sys i) rest

/-- Total number of identity-provider fetches the burst performed. -/
def burstFetches (sys : BurstSys) : Nat := sys.c0.fetches + sys.c1.fetches

/-- A fresh caller: about to do its initial cache read, no fetches yet. -/
def burstCaller0 : BurstCaller :=
  { pc := BurstPC.start, lockAcquired := false, result := none, fetches := 0 }

/-- The initial burst system: both callers fresh, the shared store available
and empty — both callers are about to miss simultaneously. -/
def burstInit : BurstSys :=
  { store := { available := true, redis := true, remote := fun _ => none, memory_cache := fun _ => none },
    c0 := burstCaller0, c1 := burstCaller0 }

/-- Burst parameters for the concrete runs: identity cid (hash modelled as
the identity), the provider answering with token "tok" expiring at 4600. -/
def burstP : BurstParams :=
  { ck := AzureTokenManager.cache_key (fun s => s) "cid",
    lk := AzureTokenManager.lock_key (fun s => s) "cid",
    tok := "tok", expiresOn := 4600 }

/-- The schedule in which the lock loser's backoff re-read and double-check
both happen before the lock holder stores the token: both callers fetch. -/
def burstSchedBoth : List Bool :=
  [false, true, false, true, true, true, true, false, false]

/-- The schedule in which the lock holder completes (fetch, store, release)
before the loser's backoff re-read: the loser is served from cache. -/
def burstSchedOne : List Bool :=
  [false, true, false, true, false, false, false, false, true]

/-- Claim C2, counterexample.  With N = 2 callers missing simultaneously and
the shared store available and failure-free throughout, there is an
interleaving in which both callers perform a provider fetch: the caller that
loses the single-flight lock re-reads the cache after its backoff, still
misses (the holder has not stored yet), and falls through to fetch anyway.
The number of fetches for the burst is 2, not strictly less than N. -/
theorem C2_counterexample :
    burstInit.store.available = true ∧
    burstFetches (burstRun burstP 1000 burstInit burstSchedBoth) = 2 ∧
    ¬ burstFetches (burstRun burstP 1000 burstInit burstSchedBoth) < 2 := by
  decide

/-- How many further provider fetches a caller at this pc can still perform:
the control flow of get_token passes through the fetch at most once. -/
def burstBudget : BurstPC → Nat
  | BurstPC.store => 0
  | BurstPC.release => 0
  | BurstPC.done => 0
  | _ => 1

/-- Per-caller invariant: fetches performed plus fetches still possible never
exceed one. -/
def BurstCaller.inv (c : BurstCaller) : Prop := c.fetches + burstBudget c.pc ≤ 1

/-- Every atomic step preserves the per-caller fetch invariant. -/
theorem burstStepCaller_inv (p : BurstParams) (now : Int) (st : RedisClientState)
    (c : BurstCaller) (h : BurstCaller.inv c) :
    BurstCaller.inv (burstStepCaller p now st c).2 := by
  unfold BurstCaller.inv at h ⊢
  cases hla : c.lockAcquired <;>
  cases hpc : c.pc <;>
    simp only [burstStepCaller, hpc, hla] <;>
    first
      | (split <;> simp_all [burstBudget])
      | (simp_all [burstBudget])

/-- Running any schedule from invariant-satisfying callers keeps both
invariants. -/
theorem burstRun_inv (sched : List Bool) (p : BurstParams) (now : Int) (sys : BurstSys)
    (h0 : BurstCaller.inv sys.c0) (h1 : BurstCaller.inv sys.c1) :
    BurstCaller.inv (burstRun p now sys sched).c0 ∧
    BurstCaller.inv (burstRun p now sys sched).c1 := by
  induction sched generalizing sys with
  | nil => exact ⟨h0, h1⟩
  | cons i rest ih =>
    cases i
    · exact ih (burstStep p now sys false)
        (burstStepCaller_inv p now sys.store sys.c0 h0) h1
    · exact ih (burstStep p now sys true) h0
        (burstStepCaller_inv p now sys.store sys.c1 h1)

/-- Claim C2, amended: with N = 2 callers concurrently missing under an
available shared store, the single-flight lock does not guarantee strictly
fewer than N provider fetches — a lock-losing caller falls through to fetch
after its one backoff (see the counterexample).  What holds for every
interleaving is that each caller fetches at most once, so the burst triggers
at most N fetches; and in the interleavings where the lock holder stores the
token before the loser's backoff re-read, the loser is served from the cache
and the burst performs exactly one fetch. -/
theorem C2_amended_burst_bound :
    (∀ (p : BurstParams) (now : Int) (sched : List Bool),
      burstFetches (burstRun p now burstInit sched) ≤ 2) ∧
    burstFetches (burstRun burstP 1000 burstInit burstSchedOne) = 1 ∧
    (burstRun burstP 1000 burstInit burstSchedOne).c1.fetches = 0 ∧
    (burstRun burstP 1000 burstInit burstSchedOne).c1.result = some "tok" := by
  refine ⟨?_, by decide, by decide, by decide⟩
  intro p now sched
  have hinit : BurstCaller.inv burstCaller0 := by
    simp [BurstCaller.inv, burstCaller0, burstBudget]
  have h := burstRun_inv sched p now burstInit hinit hinit
  obtain ⟨i0, i1⟩ := h
  unfold BurstCaller.inv at i0 i1
  unfold burstFetches
  omega
